import Mathlib

/-!
# deploy-watcher: shallow embedding and verification

A shallow embedding of `src/watcher.py` (deploy-watcher, a post-deployment
health monitor) and proofs settling the frozen claims about it.

Modelling conventions:
* Wall-clock readings (`time.time()`, `time.monotonic()` deltas, timestamps)
  are modelled as exact integers (`ℤ`); the claims only use ordering and
  subtraction on them, never fractional precision.
* Network and subprocess effects are modelled as explicit outcome parameters:
  the environment chooses what the HTTP request or the launched process does,
  and the embedded function computes what the Python code would do with that
  outcome.  A Python function that cannot raise is embedded as a total
  function.
* Python `dict` counters accessed with `.get(name, 0)` are modelled as total
  functions `String → ℤ` defaulting to `0`.
* Python truthiness is modelled explicitly where the code relies on it
  (empty string falsy, `None` falsy, float `0.0` falsy).
-/

/-- `ServiceStatus` enum of `watcher.py` (lines 29-33). -/
inductive ServiceStatus where
  | healthy
  | degraded
  | down
  | unknown
deriving DecidableEq, Repr

/-- `CheckResult` dataclass of `watcher.py` (lines 36-53): one probe outcome. -/
structure CheckResult where
  service_name : String
  status : ServiceStatus
  response_time_ms : ℤ
  status_code : Option ℤ := none
  error : Option String := none
  timestamp : ℤ := 0
deriving DecidableEq, Repr

/-- `ServiceConfig` dataclass of `watcher.py` (lines 56-63): one monitored service. -/
structure ServiceConfig where
  name : String
  url : String
  method : String := "GET"
  expected_status : ℤ := 200
  expected_body : Option String := none
  headers : List (String × String) := []
deriving DecidableEq, Repr

/-- Does the character list start with the given needle? (helper for Python's
`in` substring operator). -/
def charsStartWith : List Char → List Char → Bool
  | _, [] => true
  | [], _ :: _ => false
  | a :: as, b :: bs => a = b && charsStartWith as bs

/-- Does `hay` contain `needle` as a contiguous run? (helper for Python's
`in` substring operator). -/
def charsContain (hay needle : List Char) : Bool :=
  match hay with
  | [] => needle.isEmpty
  | _ :: rest => charsStartWith hay needle || charsContain rest needle

/-- Python's `needle in hay` substring test on strings. -/
def strContains (hay needle : String) : Bool :=
  charsContain hay.data needle.data

/-- The body-check condition of `HealthChecker.check` (line 87):
`service.expected_body and service.expected_body not in response.text`.
Python truthiness: `None` and the empty string are falsy, so the substring
test only runs for a nonempty configured body. -/
def bodyCheckFails (expected_body : Option String) (body : String) : Bool :=
  match expected_body with
  | none => false
  | some b => !b.isEmpty && !strContains body b

/-- What the environment did with the single HTTP request issued by
`HealthChecker.check` (lines 76-80): the request raised
`httpx.TimeoutException`, raised some other exception (with `str(e)` as its
description), or resolved to a response. -/
inductive NetOutcome where
  | timeout
  | failure (desc : String)
  | response (status_code : ℤ) (body : String)
deriving DecidableEq, Repr

/-- `HealthChecker.check` (`watcher.py` lines 73-112).  `elapsed` is the
measured wall-clock duration in ms and `ts` the `CheckResult` creation
timestamp; the Python code obtains both from the clock. -/
def HealthChecker.check (service : ServiceConfig) (outcome : NetOutcome)
    (elapsed ts : ℤ) : CheckResult :=
  match outcome with
  | NetOutcome.response code body =>
      let status0 := ServiceStatus.healthy
      let status1 :=
        if code ≠ service.expected_status then ServiceStatus.degraded else status0
      let status2 :=
        if bodyCheckFails service.expected_body body then ServiceStatus.degraded
        else status1
      { service_name := service.name
        status := status2
        response_time_ms := elapsed
        status_code := some code
        error := none
        timestamp := ts }
  | NetOutcome.timeout =>
      { service_name := service.name
        status := ServiceStatus.down
        response_time_ms := elapsed
        status_code := none
        error := some "Timeout"
        timestamp := ts }
  | NetOutcome.failure desc =>
      { service_name := service.name
        status := ServiceStatus.down
        response_time_ms := elapsed
        status_code := none
        error := some desc
        timestamp := ts }

/-- The two notification sinks `Notifier` can configure (lines 121-124). -/
inductive SinkKind where
  | slack
  | webhook
deriving DecidableEq, Repr

/-- One sink delivery's outcome, as collected by
`asyncio.gather(..., return_exceptions=True)`: either the coroutine returned
normally or it raised (the exception object is kept, not propagated). -/
inductive SinkOutcome where
  | ok
  | exn (msg : String)
deriving DecidableEq, Repr

/-- The sink configuration read in `Notifier.__init__` (lines 121-124);
missing config keys default to the empty string. -/
structure NotifierConfig where
  slack_url : String
  webhook_url : String
deriving DecidableEq, Repr

/-- The task list `Notifier.notify` builds (lines 127-131): a Slack task if
`slack_url` is truthy, then a webhook task if `webhook_url` is truthy. -/
def Notifier.sinks (c : NotifierConfig) : List SinkKind :=
  (if !c.slack_url.isEmpty then [SinkKind.slack] else []) ++
    (if !c.webhook_url.isEmpty then [SinkKind.webhook] else [])

/-- Observable record of one `Notifier.notify` call: which sink tasks were
created, what `asyncio.gather` collected (if it was invoked at all), and the
Python return value of `notify` itself. -/
structure NotifyRun where
  dispatched : List SinkKind
  gathered : Option (List SinkOutcome)
  returned : Option (List SinkOutcome)
deriving DecidableEq, Repr

/-- `Notifier.notify` (`watcher.py` lines 126-133).  `deliver` is the
environment's outcome for each sink delivery.  The code awaits
`asyncio.gather(*tasks, return_exceptions=True)` only when `tasks` is
nonempty, discards the gathered list, and falls off the end of the function,
so its Python return value is `None` (modelled as `returned = none`). -/
def Notifier.notify (c : NotifierConfig) (deliver : SinkKind → SinkOutcome) :
    NotifyRun :=
  let tasks := Notifier.sinks c
  { dispatched := tasks
    gathered := if tasks.isEmpty then none else some (tasks.map deliver)
    returned := none }

/-- What the environment did with the subprocess launched by
`RollbackEngine.execute` (lines 196-201): launching or waiting raised an
exception, or the process completed with an exit code and captured output. -/
inductive ProcOutcome where
  | exn (msg : String)
  | completed (returncode : ℤ) (stdout stderr : String)
deriving DecidableEq, Repr

/-- `RollbackEngine` state (`watcher.py` lines 178-182). -/
structure RollbackEngine where
  enabled : Bool
  command : String
  cooldown : ℤ
  last_rollback : Option ℤ := none
deriving DecidableEq, Repr

/-- Observable record of one `RollbackEngine.execute` call: its return value,
the engine state afterwards, and whether the guard was passed and the
external command actually launched (line 196 reached). -/
structure ExecRun where
  result : Bool
  engine : RollbackEngine
  launched : Bool
deriving DecidableEq, Repr

/-- The cooldown guard of `RollbackEngine.execute` (lines 188-192): the
guard fires when a prior timestamp is stored and truthy (Python float `0.0`
is falsy, so a stored `0` is skipped) and the elapsed time since it is below
the cooldown. -/
def RollbackEngine.cooldownBlocks (e : RollbackEngine) (tGuard : ℤ) : Bool :=
  match e.last_rollback with
  | some t => !decide (t = 0) && decide (tGuard - t < e.cooldown)
  | none => false

/-- `RollbackEngine.execute` (`watcher.py` lines 184-212).  `tGuard` is the
`time.time()` reading at the cooldown check (line 189) and `tDone` the
reading after `proc.communicate()` returns (line 202); the code records
`tDone` as `_last_rollback` only on the completed path — an exception inside
the `try` skips line 202 and leaves the stored timestamp unchanged. -/
def RollbackEngine.execute (e : RollbackEngine) (tGuard tDone : ℤ)
    (outcome : ProcOutcome) : ExecRun :=
  if !e.enabled || e.command.isEmpty then
    { result := false, engine := e, launched := false }
  else if e.cooldownBlocks tGuard then
    { result := false, engine := e, launched := false }
  else
    match outcome with
    | ProcOutcome.exn _ =>
        { result := false, engine := e, launched := true }
    | ProcOutcome.completed rc _ _ =>
        { result := decide (rc = 0)
          engine := { e with last_rollback := some tDone }
          launched := true }

/-- The observable escalation calls `DeployWatcher.run_once` makes while
processing one cycle's results (lines 262-266): a `notifier.notify` call for
a service, or a `rollback.execute` call (a remediation attempt). -/
inductive Event where
  | notify (service : String)
  | remediate
deriving DecidableEq, Repr

/-- The per-result body of the loop in `DeployWatcher.run_once`
(lines 257-268): on a Down result increment that service's counter and, if
the counter has reached the threshold, notify then attempt remediation; on
any other status reset the counter to zero. -/
def DeployWatcher.runOnceStep (threshold : ℤ) (counts : String → ℤ)
    (r : CheckResult) : (String → ℤ) × List Event :=
  if r.status = ServiceStatus.down then
    let n := counts r.service_name + 1
    let counts' := Function.update counts r.service_name n
    if threshold ≤ n then
      (counts', [Event.notify r.service_name, Event.remediate])
    else
      (counts', [])
  else
    (Function.update counts r.service_name 0, [])

/-- The result-processing loop of `DeployWatcher.run_once` (lines 257-268),
threaded sequentially over the cycle's results in order; returns the updated
failure counters and the escalation calls made, in order. -/
def DeployWatcher.run_once (threshold : ℤ) (counts : String → ℤ) :
    List CheckResult → (String → ℤ) × List Event
  | [] => (counts, [])
  | r :: rest =>
      let step := DeployWatcher.runOnceStep threshold counts r
      let restRun := DeployWatcher.run_once threshold step.1 rest
      (restRun.1, step.2 ++ restRun.2)

/-- `DeployWatcher.check_all` (`watcher.py` lines 247-249): one
`HealthChecker.check` task per configured service, joined with
`asyncio.gather(*tasks)`, which resolves to the task results in
task-submission order.  `completionOrder` is the order in which the
concurrent probes happen to finish; `asyncio.gather` returns results in
argument order, so it does not influence the returned list. -/
def DeployWatcher.check_all (services : List ServiceConfig)
    (net : ServiceConfig → NetOutcome) (elapsed ts : ServiceConfig → ℤ)
    (completionOrder : List ℕ) : List CheckResult :=
  services.map (fun svc => HealthChecker.check svc (net svc) (elapsed svc) (ts svc))

/-- A Down probe result for service `s`, as produced by the Prober's timeout
path; used to drive consecutive-failure scenarios. -/
def downResult (s : String) : CheckResult :=
  { service_name := s
    status := ServiceStatus.down
    response_time_ms := 0
    status_code := none
    error := some "Timeout"
    timestamp := 0 }

/-- `n` consecutive cycles in which service `s` (the only configured service)
probes Down, starting from fresh (all-zero) failure counters: returns the
counters after the `n`-th cycle and the escalation calls made during the
`n`-th cycle itself. -/
def consecutiveDown (threshold : ℤ) (s : String) : ℕ → (String → ℤ) × List Event
  | 0 => (fun _ => (0 : ℤ), [])
  | n + 1 =>
      DeployWatcher.run_once threshold (consecutiveDown threshold s n).1
        [downResult s]

/-- The `--once` exit path of `main` (`watcher.py` lines 332-335): collect
the non-Healthy results and exit with code `1` if that list is nonempty
(Python list truthiness), else `0`. -/
def main_once_exit (results : List CheckResult) : ℕ :=
  let failed := results.filter (fun r => r.status ≠ ServiceStatus.healthy)
  if failed.isEmpty then 0 else 1

/-! ## Helper lemmas -/

/-- Spec-side classification condition for the response path, phrased as the
spec reads it: "an expected-body substring is configured and absent from the
response body".  Configured means present and nonempty, matching the Python
truthiness the code relies on (see claim C10). -/
def bodyConfiguredAndMissing (eb : Option String) (body : String) : Bool :=
  match eb with
  | none => false
  | some b => if b = "" then false else !strContains body b

lemma bodyCheckFails_eq_spec (eb : Option String) (body : String) :
    bodyCheckFails eb body = bodyConfiguredAndMissing eb body := by
  cases eb with
  | none => rfl
  | some b =>
      by_cases h : b = ""
      · subst h; rfl
      · have hb : b.isEmpty = false := by
          rw [Bool.eq_false_iff]
          intro hb'
          exact h ((String.isEmpty_iff b).mp hb')
        simp [bodyCheckFails, bodyConfiguredAndMissing, h, hb]

lemma check_service_name (svc : ServiceConfig) (o : NetOutcome) (e t : ℤ) :
    (HealthChecker.check svc o e t).service_name = svc.name := by
  cases o <;> rfl

/-! ## Claims about the Prober -/

/-- Claim C5: `probe(spec)` never raises to its caller (the embedding of
`HealthChecker.check` is a total function over every environment outcome)
and classifies outcomes as specified: a transport timeout yields Down with
error "Timeout"; any other transport/protocol failure yields Down with the
failure description as error; a received response yields Degraded if the
status code differs from `expected_status`, else Degraded if an
expected-body substring is configured and absent from the response body,
else Healthy. -/
theorem c5_probe_classification :
    ∀ (svc : ServiceConfig) (elapsed ts : ℤ),
      ((HealthChecker.check svc NetOutcome.timeout elapsed ts).status =
          ServiceStatus.down ∧
        (HealthChecker.check svc NetOutcome.timeout elapsed ts).error =
          some "Timeout") ∧
      (∀ desc,
        (HealthChecker.check svc (NetOutcome.failure desc) elapsed ts).status =
          ServiceStatus.down ∧
        (HealthChecker.check svc (NetOutcome.failure desc) elapsed ts).error =
          some desc) ∧
      (∀ code body,
        (HealthChecker.check svc (NetOutcome.response code body) elapsed ts).status =
          (if code ≠ svc.expected_status then ServiceStatus.degraded
           else if bodyConfiguredAndMissing svc.expected_body body then
             ServiceStatus.degraded
           else ServiceStatus.healthy)) := by
  intro svc elapsed ts
  refine ⟨⟨rfl, rfl⟩, fun desc => ⟨rfl, rfl⟩, fun code body => ?_⟩
  simp only [HealthChecker.check, bodyCheckFails_eq_spec]
  by_cases h1 : code = svc.expected_status <;>
    by_cases h2 : bodyConfiguredAndMissing svc.expected_body body <;>
      simp [h1, h2]

/-- Claim C9: every `ProbeResult` the Prober returns satisfies the field
invariant: on the Down (exception) paths `status_code` is absent and `error`
present; on every other path (a received response, classified Healthy or
Degraded) `status_code` is present and `error` absent. -/
theorem c9_result_field_invariant :
    ∀ (svc : ServiceConfig) (outcome : NetOutcome) (elapsed ts : ℤ),
      if (HealthChecker.check svc outcome elapsed ts).status = ServiceStatus.down
      then (HealthChecker.check svc outcome elapsed ts).status_code = none ∧
        (HealthChecker.check svc outcome elapsed ts).error.isSome = true
      else (HealthChecker.check svc outcome elapsed ts).status_code.isSome = true ∧
        (HealthChecker.check svc outcome elapsed ts).error = none := by
  intro svc outcome elapsed ts
  cases outcome with
  | timeout => simp [HealthChecker.check]
  | failure desc => simp [HealthChecker.check]
  | response code body =>
      by_cases h1 : code = svc.expected_status <;>
        by_cases h2 : bodyCheckFails svc.expected_body body <;>
          simp [HealthChecker.check, h1, h2]

lemma bodyCheckFails_empty (body : String) :
    bodyCheckFails (some "") body = false := rfl

lemma bodyCheckFails_none (body : String) :
    bodyCheckFails none body = false := rfl

/-- Claim C10: a service whose `expected_body` is configured as the empty
string is probed exactly as if no expected body were configured (Python
truthiness short-circuits the body check); in particular a response with the
expected status code is classified Healthy without any body-substring
check. -/
theorem c10_empty_expected_body :
    ∀ (svc : ServiceConfig) (outcome : NetOutcome) (elapsed ts : ℤ) (body : String),
      HealthChecker.check { svc with expected_body := some "" } outcome elapsed ts =
        HealthChecker.check { svc with expected_body := none } outcome elapsed ts ∧
      (HealthChecker.check { svc with expected_body := some "" }
          (NetOutcome.response svc.expected_status body) elapsed ts).status =
        ServiceStatus.healthy := by
  intro svc outcome elapsed ts body
  constructor
  · cases outcome <;>
      simp [HealthChecker.check, bodyCheckFails_empty, bodyCheckFails_none]
  · simp [HealthChecker.check, bodyCheckFails_empty]

/-! ## Claims about the Orchestrator's probe fan-out and the CLI exit code -/

/-- Claim C7: `check_all()` returns one result per configured service, in
service-declaration order, independent of the order in which the concurrent
probes complete (`asyncio.gather` resolves to results in task-submission
order). -/
theorem c7_check_all_order :
    ∀ (services : List ServiceConfig) (net : ServiceConfig → NetOutcome)
      (elapsed ts : ServiceConfig → ℤ) (ord : List ℕ),
      (DeployWatcher.check_all services net elapsed ts ord).length =
        services.length ∧
      (DeployWatcher.check_all services net elapsed ts ord).map
          (fun r => r.service_name) =
        services.map (fun s => s.name) ∧
      (∀ ord', DeployWatcher.check_all services net elapsed ts ord =
        DeployWatcher.check_all services net elapsed ts ord') := by
  intro services net elapsed ts ord
  refine ⟨by simp [DeployWatcher.check_all], ?_, fun ord' => rfl⟩
  simp [DeployWatcher.check_all, List.map_map, Function.comp_def, check_service_name]

/-- Claim C8: with `--once`, the process exit code is 1 exactly when some
service's result in the single cycle has a status other than Healthy
(Degraded, Down, or Unknown included), and 0 exactly when every result is
Healthy. -/
theorem c8_once_exit_code :
    ∀ (results : List CheckResult),
      (main_once_exit results = 1 ↔
        ∃ r ∈ results, r.status ≠ ServiceStatus.healthy) ∧
      (main_once_exit results = 0 ↔
        ∀ r ∈ results, r.status = ServiceStatus.healthy) := by
  intro results
  by_cases h : ∀ r ∈ results, r.status = ServiceStatus.healthy
  · have hf : results.filter (fun r => r.status ≠ ServiceStatus.healthy) = [] := by
      simp only [List.filter_eq_nil_iff]
      intro r hr
      simp [h r hr]
    have hmain : main_once_exit results = 0 := by
      have hdef : main_once_exit results =
          if (results.filter (fun r => r.status ≠ ServiceStatus.healthy)).isEmpty
          then 0 else 1 := rfl
      rw [hdef, hf]
      rfl
    refine ⟨?_, ?_⟩
    · rw [hmain]
      constructor
      · intro h01
        exact absurd h01 (by decide)
      · rintro ⟨r, hr, hrs⟩
        exact absurd (h r hr) hrs
    · rw [hmain]
      constructor
      · intro _
        exact h
      · intro _
        rfl
  · push_neg at h
    obtain ⟨r, hr, hrs⟩ := h
    have hf : results.filter (fun x => x.status ≠ ServiceStatus.healthy) ≠ [] := by
      intro hnil
      have h2 := List.filter_eq_nil_iff.mp hnil r hr
      simp [hrs] at h2
    have hmain : main_once_exit results = 1 := by
      simp only [main_once_exit]
      rw [if_neg (by simpa [List.isEmpty_iff] using hf)]
    refine ⟨?_, ?_⟩
    · rw [hmain]
      exact ⟨fun _ => ⟨r, hr, hrs⟩, fun _ => rfl⟩
    · rw [hmain]
      constructor
      · intro h10
        exact absurd h10 (by decide)
      · intro hall
        exact absurd (hall r hr) hrs

/-! ## Claim about the Alert Fan-out -/

/-- Claim C6, counterexample: with one sink configured (a Slack webhook),
`notify` creates and gathers the sink task but its Python return value is
`None`, not the per-sink outcome list the claim asserts it returns (the
`asyncio.gather` result on line 133 is discarded and `notify` has no
`return` statement). -/
theorem c6_counterexample :
    Notifier.sinks { slack_url := "https://hooks.example/slack", webhook_url := "" } =
      [SinkKind.slack] ∧
    (Notifier.notify { slack_url := "https://hooks.example/slack", webhook_url := "" }
        (fun _ => SinkOutcome.ok)).returned = none ∧
    (Notifier.notify { slack_url := "https://hooks.example/slack", webhook_url := "" }
        (fun _ => SinkOutcome.ok)).returned ≠ some [SinkOutcome.ok] := by
  refine ⟨rfl, rfl, ?_⟩
  intro h
  exact Option.noConfusion h

/-- Claim C6 as amended: `notify(message, results)` never throws to the
caller (it is a total function of the environment's per-sink outcomes),
returns `None` rather than the per-sink outcome list (the list is collected
internally by `asyncio.gather(..., return_exceptions=True)` and discarded),
isolates each sink's failure so it neither propagates nor cancels the
sibling sink (each configured sink's outcome is collected independently),
and is a no-op — no task created, no gather awaited — when no sinks are
configured. -/
theorem c6_notify_isolation :
    ∀ (c : NotifierConfig) (deliver : SinkKind → SinkOutcome),
      (Notifier.notify c deliver).returned = none ∧
      (Notifier.notify c deliver).dispatched = Notifier.sinks c ∧
      (c.slack_url.isEmpty = true → c.webhook_url.isEmpty = true →
        (Notifier.notify c deliver).dispatched = [] ∧
        (Notifier.notify c deliver).gathered = none) ∧
      (c.slack_url.isEmpty = false → c.webhook_url.isEmpty = false →
        (Notifier.notify c deliver).gathered =
          some [deliver SinkKind.slack, deliver SinkKind.webhook]) ∧
      (c.slack_url.isEmpty = false → c.webhook_url.isEmpty = true →
        (Notifier.notify c deliver).gathered = some [deliver SinkKind.slack]) ∧
      (c.slack_url.isEmpty = true → c.webhook_url.isEmpty = false →
        (Notifier.notify c deliver).gathered = some [deliver SinkKind.webhook]) := by
  intro c deliver
  refine ⟨rfl, rfl, ?_, ?_, ?_, ?_⟩ <;>
    intro h1 h2 <;>
      simp [Notifier.notify, Notifier.sinks, h1, h2]

/-- Witness for the amended C6 at a concrete input: both sinks configured,
the Slack delivery raises, and the gathered outcome list still records the
webhook delivery's success next to the captured Slack exception. -/
theorem c6_notify_isolation_witness :
    ({ slack_url := "https://hooks.example/slack"
       webhook_url := "https://hooks.example/generic" } : NotifierConfig).slack_url.isEmpty = false ∧
    ({ slack_url := "https://hooks.example/slack"
       webhook_url := "https://hooks.example/generic" } : NotifierConfig).webhook_url.isEmpty = false ∧
    (Notifier.notify
        { slack_url := "https://hooks.example/slack"
          webhook_url := "https://hooks.example/generic" }
        (fun k => match k with
          | SinkKind.slack => SinkOutcome.exn "http 500"
          | SinkKind.webhook => SinkOutcome.ok)).gathered =
      some [SinkOutcome.exn "http 500", SinkOutcome.ok] :=
  ⟨rfl, rfl,
    (c6_notify_isolation
        { slack_url := "https://hooks.example/slack"
          webhook_url := "https://hooks.example/generic" }
        (fun k => match k with
          | SinkKind.slack => SinkOutcome.exn "http 500"
          | SinkKind.webhook => SinkOutcome.ok)).2.2.2.1 rfl rfl⟩

/-! ## Claims about the Remediation Guard -/

/-- A concrete enabled Remediation Guard state (command configured, 300 s
cooldown, no prior invocation), used as the input of counterexamples and
witnesses below. -/
def rbEx : RollbackEngine :=
  { enabled := true
    command := "deploy rollback"
    cooldown := 300
    last_rollback := none }

/-- Claim C2, counterexample: two `execute()` calls 50 seconds apart with a
300-second cooldown, where the first invocation's launch/wait raised an
exception.  Because `self._last_rollback = time.time()` (line 202) sits
after `proc.communicate()` inside the `try` block, the exception path never
records a timestamp, so the second call passes the cooldown guard, launches
the external command again, and even returns true — contradicting the
claim's "independent of that invocation's outcome — success, non-zero exit,
or exception". -/
theorem c2_counterexample :
    (rbEx.execute 100 100 (ProcOutcome.exn "boom")).launched = true ∧
    ((100 : ℤ) + 50 - 100 < rbEx.cooldown) ∧
    ((rbEx.execute 100 100 (ProcOutcome.exn "boom")).engine.execute 150 150
        (ProcOutcome.completed 0 "rolled back" "")).launched = true ∧
    ((rbEx.execute 100 100 (ProcOutcome.exn "boom")).engine.execute 150 150
        (ProcOutcome.completed 0 "rolled back" "")).result = true := by
  refine ⟨rfl, by decide, rfl, rfl⟩

/-- Claim C2 as amended: for two `execute()` calls separated by less than
`cooldown` seconds (measured from the first invocation's guard-check time),
where the first invocation actually launched and its process completed the
wait — any exit code, success or failure, but not the exception path, which
records no timestamp — the second call returns false and launches no
external process.  Clock sanity assumptions: the first call's guard-check
reading is positive and its wait completes no earlier than the guard
check. -/
theorem c2_cooldown_blocks_second_call
    (e : RollbackEngine) (t1g t1d t2g t2d : ℤ) (rc : ℤ) (so se : String)
    (o2 : ProcOutcome)
    (hpos : 0 < t1g) (hmono : t1g ≤ t1d)
    (hgap : t2g - t1g < e.cooldown)
    (h1 : (e.execute t1g t1d (ProcOutcome.completed rc so se)).launched = true) :
    ((e.execute t1g t1d (ProcOutcome.completed rc so se)).engine.execute
        t2g t2d o2).result = false ∧
    ((e.execute t1g t1d (ProcOutcome.completed rc so se)).engine.execute
        t2g t2d o2).launched = false := by
  cases hE : (!e.enabled || e.command.isEmpty) with
  | true =>
      exfalso
      unfold RollbackEngine.execute at h1
      rw [hE] at h1
      simp at h1
  | false =>
      cases hB : e.cooldownBlocks t1g with
      | true =>
          exfalso
          unfold RollbackEngine.execute at h1
          rw [hE, hB] at h1
          simp at h1
      | false =>
          have heng : (e.execute t1g t1d (ProcOutcome.completed rc so se)).engine =
              { e with last_rollback := some t1d } := by
            unfold RollbackEngine.execute
            rw [hE, hB]
            simp
          rw [heng]
          have hE2 : (!({ e with last_rollback := some t1d } : RollbackEngine).enabled ||
              ({ e with last_rollback := some t1d } : RollbackEngine).command.isEmpty) = false := hE
          have hB2 :
              ({ e with last_rollback := some t1d } : RollbackEngine).cooldownBlocks t2g = true := by
            show (!decide (t1d = 0) && decide (t2g - t1d < e.cooldown)) = true
            simp only [Bool.and_eq_true, Bool.not_eq_true', decide_eq_false_iff_not,
              decide_eq_true_eq]
            exact ⟨by omega, by omega⟩
          unfold RollbackEngine.execute
          rw [hE2, hB2]
          simp

/-- Witness for the amended C2 at a concrete input: the first call launches
and its process exits nonzero at t = 105; the second call at t = 150
(within the 300-second cooldown) is refused and launches nothing. -/
theorem c2_cooldown_blocks_second_call_witness :
    ((0 : ℤ) < 100) ∧ ((100 : ℤ) ≤ 105) ∧ ((150 : ℤ) - 100 < rbEx.cooldown) ∧
    (rbEx.execute 100 105 (ProcOutcome.completed 1 "" "unit failed")).launched = true ∧
    ((rbEx.execute 100 105 (ProcOutcome.completed 1 "" "unit failed")).engine.execute
        150 150 (ProcOutcome.completed 0 "" "")).result = false ∧
    ((rbEx.execute 100 105 (ProcOutcome.completed 1 "" "unit failed")).engine.execute
        150 150 (ProcOutcome.completed 0 "" "")).launched = false :=
  ⟨by decide, by decide, by decide, rfl,
    c2_cooldown_blocks_second_call rbEx 100 105 150 150 1 "" "unit failed"
      (ProcOutcome.completed 0 "" "") (by decide) (by decide) (by decide) rfl⟩

/-- Claim C3, counterexample: `execute()` hit by an exception during
launch/wait does catch it and return false, but it does NOT record "now" as
the last-invocation timestamp — `self._last_rollback = time.time()`
(line 202) comes after `proc.communicate()` inside the `try`, so the
exception path leaves `_last_rollback` untouched (here: still `None`) and
no cooldown window starts. -/
theorem c3_counterexample :
    (rbEx.execute 100 100 (ProcOutcome.exn "boom")).launched = true ∧
    (rbEx.execute 100 100 (ProcOutcome.exn "boom")).engine.last_rollback = none ∧
    (rbEx.execute 100 100 (ProcOutcome.exn "boom")).result = false := by
  refine ⟨rfl, rfl, rfl⟩

/-- Claim C3 as amended: if an exception is raised while launching or
waiting on the command, `execute()` catches it and returns false, and never
propagates it (the embedding is a total function of the outcome); but it
does not record a last-invocation timestamp — the engine state, including
`_last_rollback`, is left exactly as it was, so no cooldown window starts
from the failed invocation. -/
theorem c3_exception_leaves_state :
    ∀ (e : RollbackEngine) (tGuard tDone : ℤ) (msg : String),
      (e.execute tGuard tDone (ProcOutcome.exn msg)).result = false ∧
      (e.execute tGuard tDone (ProcOutcome.exn msg)).engine = e := by
  intro e tGuard tDone msg
  unfold RollbackEngine.execute
  cases hE : (!e.enabled || e.command.isEmpty) with
  | true => simp [hE]
  | false =>
      cases hB : e.cooldownBlocks tGuard with
      | true => simp [hB]
      | false => simp [hE, hB]

/-! ## Claims about the Orchestrator's counter state machine -/

lemma runOnceStep_counts (threshold : ℤ) (counts : String → ℤ) (r : CheckResult) :
    (DeployWatcher.runOnceStep threshold counts r).1 =
      if r.status = ServiceStatus.down
      then Function.update counts r.service_name (counts r.service_name + 1)
      else Function.update counts r.service_name 0 := by
  by_cases h : r.status = ServiceStatus.down
  · simp only [DeployWatcher.runOnceStep, h, if_true]
    split <;> rfl
  · simp only [DeployWatcher.runOnceStep, h, if_false]

lemma runOnceStep_events (threshold : ℤ) (counts : String → ℤ) (r : CheckResult) :
    (DeployWatcher.runOnceStep threshold counts r).2 =
      if r.status = ServiceStatus.down ∧ threshold ≤ counts r.service_name + 1
      then [Event.notify r.service_name, Event.remediate]
      else [] := by
  by_cases h : r.status = ServiceStatus.down
  · by_cases h2 : threshold ≤ counts r.service_name + 1 <;>
      simp [DeployWatcher.runOnceStep, h, h2]
  · simp [DeployWatcher.runOnceStep, h]

lemma run_once_untouched (threshold : ℤ) (results : List CheckResult) :
    ∀ (counts : String → ℤ) (s : String),
      s ∉ results.map (fun r => r.service_name) →
      (DeployWatcher.run_once threshold counts results).1 s = counts s := by
  induction results with
  | nil => intro counts s _; rfl
  | cons r rest ih =>
      intro counts s h
      simp only [List.map_cons, List.mem_cons, not_or] at h
      obtain ⟨h1, h2⟩ := h
      show (DeployWatcher.run_once threshold
        (DeployWatcher.runOnceStep threshold counts r).1 rest).1 s = counts s
      rw [ih _ s h2, runOnceStep_counts]
      split <;> rw [Function.update_noteq h1]

lemma run_once_counts_aux (threshold : ℤ) (results : List CheckResult) :
    ∀ (counts : String → ℤ) (r : CheckResult),
      (results.map (fun x => x.service_name)).Nodup → r ∈ results →
      (DeployWatcher.run_once threshold counts results).1 r.service_name =
        (if r.status = ServiceStatus.down then counts r.service_name + 1 else 0) := by
  induction results with
  | nil =>
      intro counts r _ hr
      cases hr
  | cons a rest ih =>
      intro counts r hnodup hr
      simp only [List.map_cons, List.nodup_cons] at hnodup
      obtain ⟨ha, hnodup'⟩ := hnodup
      rcases List.mem_cons.mp hr with h | h
      · subst h
        have hnotin : r.service_name ∉ rest.map (fun x => x.service_name) := ha
        show (DeployWatcher.run_once threshold
          (DeployWatcher.runOnceStep threshold counts r).1 rest).1 r.service_name = _
        rw [run_once_untouched threshold rest _ _ hnotin, runOnceStep_counts]
        split <;> rw [Function.update_same]
      · have hne : r.service_name ≠ a.service_name := by
          intro heq
          exact ha (heq ▸ List.mem_map_of_mem (fun x => x.service_name) h)
        have hstep : (DeployWatcher.runOnceStep threshold counts a).1 r.service_name =
            counts r.service_name := by
          rw [runOnceStep_counts]
          split <;> rw [Function.update_noteq hne]
        show (DeployWatcher.run_once threshold
          (DeployWatcher.runOnceStep threshold counts a).1 rest).1 r.service_name = _
        rw [ih _ r hnodup' h, hstep]

/-- Claim C4: in every cycle, a service's consecutive-failure counter
increments by one exactly when that cycle's result for the service is Down,
and any other status (Healthy, Degraded, or Unknown) resets the counter to
zero regardless of its prior value.  Stated over any cycle's result list in
which each service appears once (service names are unique keys). -/
theorem c4_counter_update (threshold : ℤ) (counts : String → ℤ)
    (results : List CheckResult) (r : CheckResult)
    (hnodup : (results.map (fun x => x.service_name)).Nodup)
    (hr : r ∈ results) :
    (DeployWatcher.run_once threshold counts results).1 r.service_name =
      (if r.status = ServiceStatus.down then counts r.service_name + 1 else 0) :=
  run_once_counts_aux threshold results counts r hnodup hr

/-- Witness for C4 at a concrete input: a single Degraded result for "api"
resets a counter previously at 7 to zero. -/
theorem c4_counter_update_witness :
    (([{ service_name := "api", status := ServiceStatus.degraded,
         response_time_ms := 12, status_code := some 500, error := none,
         timestamp := 0 }] : List CheckResult).map
        (fun x => x.service_name)).Nodup ∧
    ({ service_name := "api", status := ServiceStatus.degraded,
       response_time_ms := 12, status_code := some 500, error := none,
       timestamp := 0 } : CheckResult) ∈
      ([{ service_name := "api", status := ServiceStatus.degraded,
          response_time_ms := 12, status_code := some 500, error := none,
          timestamp := 0 }] : List CheckResult) ∧
    (DeployWatcher.run_once 3 (fun _ => (7 : ℤ))
        [{ service_name := "api", status := ServiceStatus.degraded,
           response_time_ms := 12, status_code := some 500, error := none,
           timestamp := 0 }]).1 "api" = 0 := by
  refine ⟨by decide, by decide, ?_⟩
  have h := c4_counter_update 3 (fun _ => (7 : ℤ))
    [{ service_name := "api", status := ServiceStatus.degraded,
       response_time_ms := 12, status_code := some 500, error := none,
       timestamp := 0 }]
    { service_name := "api", status := ServiceStatus.degraded,
      response_time_ms := 12, status_code := some 500, error := none,
      timestamp := 0 }
    (by decide) (by decide)
  simpa using h

lemma consecutiveDown_counts (threshold : ℤ) (s : String) :
    ∀ n : ℕ, (consecutiveDown threshold s n).1 s = (n : ℤ) := by
  intro n
  induction n with
  | zero => simp [consecutiveDown]
  | succ k ih =>
      have hdef : (consecutiveDown threshold s (k + 1)).1 =
          (DeployWatcher.runOnceStep threshold
            (consecutiveDown threshold s k).1 (downResult s)).1 := rfl
      rw [hdef, runOnceStep_counts]
      simp only [downResult]
      rw [if_pos trivial, Function.update_same, ih]
      omega

/-- Claim C1: for a service probing Down every cycle from a fresh start with
threshold `T ≥ 1`, the first `T − 1` cycles produce no notify call and no
remediation attempt; the `T`-th cycle produces exactly one notify call
followed by exactly one remediation attempt; and every later cycle, the
counter having stayed at or above `T`, re-fires the same notify-then-
remediate pair — the escalation is not a one-shot edge trigger.  All of
this is the single equation: the `n`-th cycle's escalation calls are
exactly one notify and one remediation attempt when `T ≤ n`, and none
otherwise. -/
theorem c1_threshold_escalation (T : ℤ) (hT : 1 ≤ T) (s : String) (n : ℕ) :
    (consecutiveDown T s n).2 =
      (if T ≤ (n : ℤ) then [Event.notify s, Event.remediate] else []) := by
  cases n with
  | zero =>
      have h0 : ¬ (T ≤ ((0 : ℕ) : ℤ)) := by
        push_cast
        omega
      rw [if_neg h0]
      rfl
  | succ k =>
      have hdef : (consecutiveDown T s (k + 1)).2 =
          (DeployWatcher.runOnceStep T
            (consecutiveDown T s k).1 (downResult s)).2 := by
        show (DeployWatcher.run_once T (consecutiveDown T s k).1 [downResult s]).2 = _
        simp [DeployWatcher.run_once]
      rw [hdef, runOnceStep_events]
      simp only [downResult]
      rw [consecutiveDown_counts T s k]
      by_cases hk : T ≤ (k : ℤ) + 1
      · rw [if_pos ⟨trivial, hk⟩, if_pos (by omega)]
      · rw [if_neg (fun hcon => hk hcon.2), if_neg (by omega)]

/-- Witness for C1 at a concrete input: threshold 2, service "api"; the
second consecutive Down cycle fires exactly one notify and one remediation
attempt. -/
theorem c1_threshold_escalation_witness :
    (1 ≤ (2 : ℤ)) ∧
    (consecutiveDown 2 "api" 2).2 =
      (if (2 : ℤ) ≤ ((2 : ℕ) : ℤ) then [Event.notify "api", Event.remediate]
       else []) :=
  ⟨by decide, c1_threshold_escalation 2 (by decide) "api" 2⟩
